import Mathlib

/-!
# Verification of the announcements router

A shallow embedding of `src/backend/routers/announcements.py`, the single
module of the repository: CRUD endpoints for "announcement" records backed
by a document store (`announcements` and `teachers` collections), together
with theorems about the behaviour documented in the specification.

Conventions of the embedding:
* Python `datetime.date` values become the `Date` structure below, compared
  lexicographically on (year, month, day) exactly as calendar dates compare.
* `date.fromisoformat` becomes `date_fromisoformat`, accepting exactly the
  `YYYY-MM-DD` form with a calendar-validity check (month 1..12, day within
  the month, leap years included); failure is `none` (Python raises, and the
  caller `parse_date` converts the exception to `None`).
* A Mongo document of the `announcements` collection becomes the
  `Announcement` structure.  The internal `_id` and the serialized `id`
  produced by `serialize_ann` are merged into the single `id : Nat` field
  (the embedding of an `ObjectId` value), so `serialize_ann` is the identity
  here and list/mutation results are stated directly on `Announcement`.
* The two collections become the `DB` structure; `teachers` keeps only the
  usernames (`_id` primary keys), the only part the router ever reads.
* `HTTPException(status_code=..., detail=...)` becomes the `HTTPError`
  structure; each endpoint returns `Except HTTPError α × DB`, the response
  together with the store state after the call (errors in the Python code
  are raised before any write, except delete, where `delete_one` removing
  nothing is itself the no-match condition, so the state on the error side
  is the unchanged store in every case).
* `bson.ObjectId(s)` applied to a string becomes `parseObjectId`: a
  24-character hexadecimal string, here read as the `Nat` it denotes.
-/

deriving instance DecidableEq for Except

/-- Calendar date, the embedding of Python `datetime.date`. -/
structure Date where
  year : Nat
  month : Nat
  day : Nat
deriving DecidableEq, Repr

/-- Strict comparison of dates, the embedding of `<` on `datetime.date`:
lexicographic on (year, month, day). -/
def Date.ltb (a b : Date) : Bool :=
  a.year < b.year ||
    (a.year == b.year &&
      (a.month < b.month || (a.month == b.month && a.day < b.day)))

/-- Non-strict comparison of dates, the embedding of `<=` / `>=` on
`datetime.date`. -/
def Date.leb (a b : Date) : Bool :=
  !(Date.ltb b a)

/-- Leap-year test of the proleptic Gregorian calendar used by
`datetime.date`. -/
def isLeapYear (y : Nat) : Bool :=
  (y % 4 == 0 && y % 100 != 0) || y % 400 == 0

/-- Number of days of month `m` of year `y` (Gregorian). -/
def daysInMonth (y m : Nat) : Nat :=
  if m == 2 then (if isLeapYear y then 29 else 28)
  else if m == 4 || m == 6 || m == 9 || m == 11 then 30
  else 31

/-- Value of a decimal digit character, `none` on a non-digit. -/
def digit? (c : Char) : Option Nat :=
  if c.isDigit then some (c.toNat - 48) else none

/-- Embedding of `datetime.date.fromisoformat` on the `YYYY-MM-DD` form:
ten characters, dashes in positions 5 and 8, digits elsewhere, and the
resulting numbers a valid calendar date (year at least 1, month 1..12, day
1..days of that month).  Any other input is `none` (Python raises
`ValueError`, which `parse_date` below swallows). -/
def date_fromisoformat (s : String) : Option Date :=
  match s.data with
  | [y1, y2, y3, y4, '-', m1, m2, '-', d1, d2] =>
    match digit? y1, digit? y2, digit? y3, digit? y4,
          digit? m1, digit? m2, digit? d1, digit? d2 with
    | some a, some b, some c, some d, some e, some f, some g, some h =>
      let y := ((a * 10 + b) * 10 + c) * 10 + d
      let m := e * 10 + f
      let dy := g * 10 + h
      if 1 ≤ y && 1 ≤ m && m ≤ 12 && 1 ≤ dy && dy ≤ daysInMonth y m then
        some ⟨y, m, dy⟩
      else none
    | _, _, _, _, _, _, _, _ => none
  | _ => none

/-- Embedding of the router's `parse_date`: `None` and the empty string are
falsy (`if not d`) and give `None`; otherwise `date.fromisoformat` is tried
and any failure is converted to `None`. -/
def parse_date (d : Option String) : Option Date :=
  match d with
  | none => none
  | some s => if s = "" then none else date_fromisoformat s

/-- A stored announcement document.  `start_date` and `expire_date` are kept
as the raw strings the router stores (`start_date` may be `null`/absent, and
a document written by other means may lack `expire_date`, hence both are
`Option`). -/
structure Announcement where
  id : Nat
  title : String
  message : String
  start_date : Option String
  expire_date : Option String
  created_by : String
  created_at : String
deriving DecidableEq, Repr

/-- The store: the `announcements` collection in its natural order, and the
`teachers` collection reduced to its `_id` usernames, the only field the
router consults. -/
structure DB where
  announcements : List Announcement
  teachers : List String
deriving DecidableEq, Repr

/-- Embedding of `HTTPException(status_code=..., detail=...)`. -/
structure HTTPError where
  status : Nat
  detail : String
deriving DecidableEq, Repr

/-- Embedding of `teachers_collection.find_one({"_id": username})` followed
by the truthiness test: does a teacher with this username exist. -/
def teacherExists (db : DB) (username : String) : Bool :=
  db.teachers.contains username

/-- Embedding of `bson.ObjectId(announcement_id)` on a string argument: a
24-character hexadecimal string (either case) is accepted, anything else
raises (`none` here).  The accepted id is read as the natural number the
hex digits denote. -/
def isHexDigitChar (c : Char) : Bool :=
  c.isDigit || ('a' ≤ c && c ≤ 'f') || ('A' ≤ c && c ≤ 'F')

/-- Numeric value of a hexadecimal digit character. -/
def hexVal (c : Char) : Nat :=
  if c.isDigit then c.toNat - 48
  else if 'a' ≤ c && c ≤ 'f' then c.toNat - 87
  else c.toNat - 55

/-- Parse a string as an ObjectId (see `isHexDigitChar`). -/
def parseObjectId (s : String) : Option Nat :=
  if s.length == 24 && s.data.all isHexDigitChar then
    some (s.data.foldl (fun acc c => acc * 16 + hexVal c) 0)
  else none

/-- Sort key of the Mongo `.sort("expire_date", 1)` of `list_announcements`:
in BSON ordering a missing/null field sorts before every string, and strings
compare lexically by code point. -/
def mongoFieldLe (x y : Option String) : Bool :=
  match x, y with
  | none, _ => true
  | some _, none => false
  | some a, some b => decide (a ≤ b)

/-- Embedding of `list_announcements` (`GET /announcements/`): every stored
document, sorted ascending by the raw `expire_date` field by the store. -/
def list_announcements (db : DB) : List Announcement :=
  db.announcements.mergeSort (fun a b => mongoFieldLe a.expire_date b.expire_date)

/-- The per-document test of the `list_active_announcements` loop: parse
both dates; skip when `expire_date` does not parse; skip when `start_date`
parses and is strictly after today; keep when the parsed `expire_date` is
today or later. -/
def isActive (today : Date) (a : Announcement) : Bool :=
  match parse_date a.expire_date with
  | none => false
  | some expire =>
    match parse_date a.start_date with
    | some start => if Date.ltb today start then false else Date.leb today expire
    | none => Date.leb today expire

/-- Embedding of `list_active_announcements` (`GET /announcements/active`):
filter by `isActive` preserving store order, then `list.sort` (a stable
sort) with key `a.get("expire_date", "")`, i.e. the raw string, absent
read as `""`. -/
def list_active_announcements (db : DB) (today : Date) : List Announcement :=
  (db.announcements.filter (isActive today)).mergeSort
    (fun a b => decide ((a.expire_date.getD "") ≤ (b.expire_date.getD "")))

/-- Embedding of `create_announcement` (`POST /announcements/`).  `newId` is
the ObjectId the store assigns to the inserted document and `now` the
`datetime.utcnow().isoformat() + "Z"` timestamp, both inputs of the
environment. -/
def create_announcement (db : DB) (title message : String)
    (expire_date : String) (start_date : Option String)
    (teacher_username : String) (newId : Nat) (now : String) :
    Except HTTPError Announcement × DB :=
  if !teacherExists db teacher_username then
    (.error ⟨401, "Authentication required"⟩, db)
  else
    match parse_date (some expire_date) with
    | none => (.error ⟨400, "Invalid expire_date format, expected YYYY-MM-DD"⟩, db)
    | some exp =>
      match parse_date start_date with
      | some start =>
        if Date.ltb exp start then
          (.error ⟨400, "start_date cannot be after expire_date"⟩, db)
        else
          let doc : Announcement :=
            ⟨newId, title, message, start_date, some expire_date, teacher_username, now⟩
          (.ok doc, ⟨db.announcements ++ [doc], db.teachers⟩)
      | none =>
        let doc : Announcement :=
          ⟨newId, title, message, none, some expire_date, teacher_username, now⟩
        (.ok doc, ⟨db.announcements ++ [doc], db.teachers⟩)

/-- The `updates` dict built by `update_announcement`: an entry is present
exactly when the corresponding key was put in the dict; the `start_date`
entry carries `none` when the empty string cleared the field. -/
structure Updates where
  title : Option String
  message : Option String
  expire_date : Option String
  start_date : Option (Option String)
deriving DecidableEq, Repr

/-- `if not updates` of the Python code: the dict is empty. -/
def Updates.isEmpty (u : Updates) : Bool :=
  u.title.isNone && u.message.isNone && u.expire_date.isNone && u.start_date.isNone

/-- Effect of `update_one({"_id": oid}, {"$set": updates})` on a single
matched document. -/
def applyUpdates (a : Announcement) (u : Updates) : Announcement :=
  { a with
    title := u.title.getD a.title
    message := u.message.getD a.message
    expire_date := match u.expire_date with
      | none => a.expire_date
      | some e => some e
    start_date := u.start_date.getD a.start_date }

/-- `update_one` touches at most one document: replace the first document
matching the id, leave everything else in place. -/
def updateFirst (l : List Announcement) (oid : Nat)
    (f : Announcement → Announcement) : List Announcement :=
  match l with
  | [] => []
  | a :: rest =>
    if a.id == oid then f a :: rest else a :: updateFirst rest oid f

/-- The `expire_date` validation of `update_announcement`: the key was
supplied and `parse_date` fails on it. -/
def hasInvalidExpire (e? : Option String) : Bool :=
  match e? with
  | none => false
  | some e => (parse_date (some e)).isNone

/-- The `start_date` validation of `update_announcement`: the key was
supplied, is not the empty string, and `parse_date` fails on it. -/
def hasInvalidStart (s? : Option String) : Bool :=
  match s? with
  | none => false
  | some s => s != "" && (parse_date (some s)).isNone

/-- Embedding of `update_announcement` (`PUT /announcements/{id}`), in the
order of the Python code: auth check, ObjectId parse, existence check, the
field validations building `updates` (title and message never fail,
`expire_date` then `start_date` may), the emptiness check, then the write
and re-read (the re-read of the single updated document is
`applyUpdates ann`). -/
def update_announcement (db : DB) (announcement_id : String)
    (title message expire_date start_date : Option String)
    (teacher_username : String) :
    Except HTTPError Announcement × DB :=
  if !teacherExists db teacher_username then
    (.error ⟨401, "Authentication required"⟩, db)
  else
    match parseObjectId announcement_id with
    | none => (.error ⟨400, "Invalid announcement id"⟩, db)
    | some oid =>
      match db.announcements.find? (fun a => a.id == oid) with
      | none => (.error ⟨404, "Announcement not found"⟩, db)
      | some ann =>
        if hasInvalidExpire expire_date then
          (.error ⟨400, "Invalid expire_date format"⟩, db)
        else if hasInvalidStart start_date then
          (.error ⟨400, "Invalid start_date format"⟩, db)
        else
          let u : Updates :=
            ⟨title, message, expire_date,
              start_date.map (fun s => if s = "" then none else some s)⟩
          if u.isEmpty then
            (.error ⟨400, "No updates provided"⟩, db)
          else
            (.ok (applyUpdates ann u),
              ⟨updateFirst db.announcements oid (fun a => applyUpdates a u),
                db.teachers⟩)

/-- Embedding of `delete_announcement` (`DELETE /announcements/{id}`):
auth check, ObjectId parse, `delete_one` (which removes the first matched
document, if any), 404 when `deleted_count == 0`. -/
def delete_announcement (db : DB) (announcement_id : String)
    (teacher_username : String) :
    Except HTTPError String × DB :=
  if !teacherExists db teacher_username then
    (.error ⟨401, "Authentication required"⟩, db)
  else
    match parseObjectId announcement_id with
    | none => (.error ⟨400, "Invalid announcement id"⟩, db)
    | some oid =>
      let remaining := db.announcements.eraseP (fun a => a.id == oid)
      if db.announcements.any (fun a => a.id == oid) then
        (.ok "Announcement deleted", ⟨remaining, db.teachers⟩)
      else
        (.error ⟨404, "Announcement not found"⟩, ⟨remaining, db.teachers⟩)

/-! ## Concrete fixtures used by witnesses and counterexamples -/

/-- A stored announcement with id 1 and expire date 2099-01-01. -/
def annA : Announcement :=
  ⟨1, "Exam Notice", "Midterm moved", none, some "2099-01-01", "teacher1",
    "2025-01-01T00:00:00Z"⟩

/-- A store holding `annA` and the staff account `teacher1`. -/
def dbA : DB := ⟨[annA], ["teacher1"]⟩

/-- The 24-hex-digit id string denoting ObjectId 1. -/
def idStr1 : String := "000000000000000000000001"

/-! ## Theorems -/

/-- C2 counterexample: an update request supplying none of the four fields,
made with a `requester_username` that does not identify a staff account,
fails with Unauthorized (401 "Authentication required"), not with
BadRequest "No updates provided" — the authorization check runs before the
no-updates check. -/
theorem update_no_fields_unauthorized_is_401 :
    (update_announcement ⟨[], []⟩ "000000000000000000000000"
        none none none none "alice").1
      = .error ⟨401, "Authentication required"⟩
    ∧ (update_announcement ⟨[], []⟩ "000000000000000000000000"
        none none none none "alice").1
      ≠ .error ⟨400, "No updates provided"⟩ := by
  decide

/-- C2 (amended): an update request by an authorized requester, whose id is
well-formed and resolves to an existing record, supplying none of title,
message, expire_date, start_date, fails with BadRequest "No updates
provided" and leaves the store unchanged. -/
theorem update_no_fields_authorized_bad_request
    (db : DB) (ids u : String) (oid : Nat) (ann : Announcement)
    (hu : teacherExists db u = true)
    (hid : parseObjectId ids = some oid)
    (hfind : db.announcements.find? (fun a => a.id == oid) = some ann) :
    update_announcement db ids none none none none u
      = (.error ⟨400, "No updates provided"⟩, db) := by
  simp [update_announcement, hu, hid, hfind, hasInvalidExpire,
    hasInvalidStart, Updates.isEmpty]

/-- Witness for C2 (amended) at the fixture store. -/
theorem update_no_fields_authorized_bad_request_witness :
    update_announcement dbA idStr1 none none none none "teacher1"
      = (.error ⟨400, "No updates provided"⟩, dbA) :=
  update_no_fields_authorized_bad_request dbA idStr1 "teacher1" 1 annA
    (by decide) (by decide) (by decide)

/-- C4: for an authorized create with parseable `expire_date` and a
supplied, parseable `start_date`, the request fails with BadRequest
"start_date cannot be after expire_date" exactly when the parsed start date
is strictly after the parsed expire date; otherwise (equality included) the
record is created with the dates stored as given. -/
theorem create_start_after_expire_iff
    (db : DB) (t m ed s u : String) (newId : Nat) (now : String) (st ex : Date)
    (hu : teacherExists db u = true)
    (hed : parse_date (some ed) = some ex)
    (hs : parse_date (some s) = some st) :
    ((create_announcement db t m ed (some s) u newId now).1
        = .error ⟨400, "start_date cannot be after expire_date"⟩
      ↔ Date.ltb ex st = true)
    ∧ (Date.ltb ex st = false →
        (create_announcement db t m ed (some s) u newId now).1
          = .ok ⟨newId, t, m, some s, some ed, u, now⟩) := by
  cases h : Date.ltb ex st <;>
    simp [create_announcement, hu, hed, hs, h]

/-- Witness for C4: start 2099-06-01 strictly after expire 2099-01-01 is
rejected. -/
theorem create_start_after_expire_iff_witness :
    (((create_announcement dbA "T" "M" "2099-01-01" (some "2099-06-01")
          "teacher1" 2 "now").1
        = .error ⟨400, "start_date cannot be after expire_date"⟩)
      ↔ Date.ltb ⟨2099, 1, 1⟩ ⟨2099, 6, 1⟩ = true)
    ∧ (Date.ltb ⟨2099, 1, 1⟩ ⟨2099, 6, 1⟩ = false →
        (create_announcement dbA "T" "M" "2099-01-01" (some "2099-06-01")
            "teacher1" 2 "now").1
          = .ok ⟨2, "T", "M", some "2099-06-01", some "2099-01-01",
              "teacher1", "now"⟩) :=
  create_start_after_expire_iff dbA "T" "M" "2099-01-01" "2099-06-01"
    "teacher1" 2 "now" ⟨2099, 6, 1⟩ ⟨2099, 1, 1⟩
    (by decide) (by decide) (by decide)

/-- C5: an authorized create with parseable `expire_date` and a supplied but
unparseable `start_date` succeeds, and the persisted record's `start_date`
is absent (`None`): the bad value is silently dropped. -/
theorem create_unparseable_start_dropped
    (db : DB) (t m ed s u : String) (newId : Nat) (now : String) (ex : Date)
    (hu : teacherExists db u = true)
    (hed : parse_date (some ed) = some ex)
    (hs : parse_date (some s) = none) :
    create_announcement db t m ed (some s) u newId now
      = (.ok ⟨newId, t, m, none, some ed, u, now⟩,
          ⟨db.announcements ++ [⟨newId, t, m, none, some ed, u, now⟩],
            db.teachers⟩) := by
  simp [create_announcement, hu, hed, hs]

/-- Witness for C5: `start_date = "not-a-date"` is stored as absent. -/
theorem create_unparseable_start_dropped_witness :
    create_announcement dbA "T" "M" "2099-01-01" (some "not-a-date")
        "teacher1" 2 "now"
      = (.ok ⟨2, "T", "M", none, some "2099-01-01", "teacher1", "now"⟩,
          ⟨dbA.announcements ++
              [⟨2, "T", "M", none, some "2099-01-01", "teacher1", "now"⟩],
            dbA.teachers⟩) :=
  create_unparseable_start_dropped dbA "T" "M" "2099-01-01" "not-a-date"
    "teacher1" 2 "now" ⟨2099, 1, 1⟩ (by decide) (by decide) (by decide)

/-- C6 counterexample: a create request with empty `title` and empty
`message` by an authorized requester succeeds, and the stored record's
`title` is the empty string — create does not validate non-emptiness. -/
theorem create_empty_title_accepted :
    create_announcement ⟨[], ["t"]⟩ "" "" "2099-01-01" none "t" 1 "now"
      = (.ok ⟨1, "", "", none, some "2099-01-01", "t", "now"⟩,
          ⟨[⟨1, "", "", none, some "2099-01-01", "t", "now"⟩], ["t"]⟩)
    ∧ (⟨1, "", "", none, some "2099-01-01", "t", "now"⟩ :
        Announcement).title = "" := by
  decide

/-- C6 (amended): create requires `title` and `message` to be supplied but
does not check them for non-emptiness: every authorized create with a
parseable `expire_date` (and no start date) succeeds and persists `title`
and `message` exactly as given, the empty string included. -/
theorem create_stores_title_message_as_given
    (db : DB) (t m ed u : String) (newId : Nat) (now : String) (ex : Date)
    (hu : teacherExists db u = true)
    (hed : parse_date (some ed) = some ex) :
    create_announcement db t m ed none u newId now
      = (.ok ⟨newId, t, m, none, some ed, u, now⟩,
          ⟨db.announcements ++ [⟨newId, t, m, none, some ed, u, now⟩],
            db.teachers⟩) := by
  simp only [create_announcement, hu, hed, Bool.not_true, Bool.false_eq_true,
    if_false]
  rfl

/-- Witness for C6 (amended), instantiated at the empty title and message. -/
theorem create_stores_title_message_as_given_witness :
    create_announcement dbA "" "" "2099-01-01" none "teacher1" 2 "now"
      = (.ok ⟨2, "", "", none, some "2099-01-01", "teacher1", "now"⟩,
          ⟨dbA.announcements ++
              [⟨2, "", "", none, some "2099-01-01", "teacher1", "now"⟩],
            dbA.teachers⟩) :=
  create_stores_title_message_as_given dbA "" "" "2099-01-01" "teacher1" 2
    "now" ⟨2099, 1, 1⟩ (by decide) (by decide)

/-- C3 counterexample: an authorized update of an existing record supplying
a non-empty unparseable `start_date` together with an unparseable
`expire_date` fails with "Invalid expire_date format", not with the
"Invalid start_date format" the claim promises for every such update — the
`expire_date` validation runs first. -/
theorem update_invalid_expire_masks_invalid_start :
    ("bad" ≠ "")
    ∧ parse_date (some "bad") = none
    ∧ (update_announcement dbA idStr1 none none (some "nope") (some "bad")
        "teacher1").1 = .error ⟨400, "Invalid expire_date format"⟩
    ∧ (update_announcement dbA idStr1 none none (some "nope") (some "bad")
        "teacher1").1 ≠ .error ⟨400, "Invalid start_date format"⟩ := by
  decide

/-- C3 (amended): for an authorized update of an existing record whose
supplied `expire_date`, if any, is parseable: a non-empty unparseable
`start_date` fails with BadRequest "Invalid start_date format"; an empty
`start_date` succeeds and clears the stored `start_date` to absent; and a
parseable `start_date`, supplied alone, is stored as given with no check
against the record's stored `expire_date`, so it may be strictly after it. -/
theorem update_start_date_rules
    (db : DB) (ids u : String) (oid : Nat) (ann : Announcement)
    (t m ed? : Option String) (s sGood : String) (st ex : Date)
    (hu : teacherExists db u = true)
    (hid : parseObjectId ids = some oid)
    (hfind : db.announcements.find? (fun a => a.id == oid) = some ann)
    (hed : hasInvalidExpire ed? = false)
    (hs1 : s ≠ "")
    (hs2 : parse_date (some s) = none)
    (hg : parse_date (some sGood) = some st)
    (hex : parse_date ann.expire_date = some ex)
    (hlt : Date.ltb ex st = true) :
    (update_announcement db ids t m ed? (some s) u
        = (.error ⟨400, "Invalid start_date format"⟩, db))
    ∧ (Except.map Announcement.start_date
        (update_announcement db ids t m ed? (some "") u).1 = .ok none)
    ∧ ((update_announcement db ids none none none (some sGood) u).1
        = .ok { ann with start_date := some sGood }) := by
  refine ⟨?_, ?_, ?_⟩
  · have hinv : hasInvalidStart (some s) = true := by
      simp [hasInvalidStart, hs1, hs2]
    simp [update_announcement, hu, hid, hfind, hed, hinv]
  · have hinv : hasInvalidStart (some "") = false := by
      simp [hasInvalidStart]
    simp [update_announcement, hu, hid, hfind, hed, hinv, Updates.isEmpty,
      applyUpdates, Except.map]
  · have hne : sGood ≠ "" := by
      intro h0
      rw [h0] at hg
      simp [parse_date] at hg
    have hinv : hasInvalidStart (some sGood) = false := by
      simp [hasInvalidStart, hg]
    simp [update_announcement, hu, hid, hfind, hasInvalidExpire, hinv,
      Updates.isEmpty, applyUpdates, hne]

/-- Witness for C3 (amended) at the fixture store: `annA` has stored expire
date 2099-01-01 and the update stores start date 2099-06-01, strictly after
it. -/
theorem update_start_date_rules_witness :
    (update_announcement dbA idStr1 none none none (some "bad") "teacher1"
        = (.error ⟨400, "Invalid start_date format"⟩, dbA))
    ∧ (Except.map Announcement.start_date
        (update_announcement dbA idStr1 none none none (some "") "teacher1").1
        = .ok none)
    ∧ ((update_announcement dbA idStr1 none none none (some "2099-06-01")
          "teacher1").1
        = .ok { annA with start_date := some "2099-06-01" }) :=
  update_start_date_rules dbA idStr1 "teacher1" 1 annA none none none
    "bad" "2099-06-01" ⟨2099, 6, 1⟩ ⟨2099, 1, 1⟩
    (by decide) (by decide) (by decide) (by decide) (by decide) (by decide)
    (by decide) (by decide) (by decide)

/-- `update_one`'s `$set` never changes the `_id` of a document. -/
theorem applyUpdates_id (a : Announcement) (u : Updates) :
    (applyUpdates a u).id = a.id := rfl

/-- Reading back the updated document: if a lookup by id found `ann`, then
after replacing the first document with that id by `f` of it (for an `f`
preserving ids), the same lookup finds `f ann`. -/
theorem find?_updateFirst
    (oid : Nat) (f : Announcement → Announcement)
    (hf : ∀ a, (f a).id = a.id)
    (l : List Announcement) (ann : Announcement)
    (h : l.find? (fun a => a.id == oid) = some ann) :
    (updateFirst l oid f).find? (fun a => a.id == oid) = some (f ann) := by
  induction l with
  | nil => simp at h
  | cons a rest ih =>
    cases hba : (a.id == oid) with
    | true =>
      have ha : a = ann := by
        simp only [List.find?_cons, hba] at h
        exact Option.some.inj h
      subst ha
      have hfa : ((f a).id == oid) = true := by rw [hf]; exact hba
      simp [updateFirst, hba, hfa]
    | false =>
      have h' : rest.find? (fun x => x.id == oid) = some ann := by
        simp only [List.find?_cons, hba] at h
        exact h
      simp [updateFirst, hba, ih h']

/-- C8: an authorized update of an existing record supplying only `title`
returns the record with the new title and every other field (`message`,
`start_date`, `expire_date`, `created_by`, `created_at`, and the id)
unchanged, and the record stored under that id afterwards is exactly the
same value. -/
theorem update_title_only_frame
    (db : DB) (ids u newTitle : String) (oid : Nat) (ann : Announcement)
    (hu : teacherExists db u = true)
    (hid : parseObjectId ids = some oid)
    (hfind : db.announcements.find? (fun a => a.id == oid) = some ann) :
    ((update_announcement db ids (some newTitle) none none none u).1
        = .ok { ann with title := newTitle })
    ∧ ((update_announcement db ids (some newTitle) none none none
            u).2.announcements.find? (fun a => a.id == oid)
        = some { ann with title := newTitle }) := by
  have hres : update_announcement db ids (some newTitle) none none none u
      = (.ok (applyUpdates ann ⟨some newTitle, none, none, none⟩),
          ⟨updateFirst db.announcements oid
              (fun a => applyUpdates a ⟨some newTitle, none, none, none⟩),
            db.teachers⟩) := by
    simp [update_announcement, hu, hid, hfind, hasInvalidExpire,
      hasInvalidStart, Updates.isEmpty]
  have happ : ∀ a : Announcement,
      applyUpdates a ⟨some newTitle, none, none, none⟩
        = { a with title := newTitle } := fun a => rfl
  constructor
  · rw [hres, happ]
  · rw [hres]
    simpa [happ] using find?_updateFirst oid
      (fun a => applyUpdates a ⟨some newTitle, none, none, none⟩)
      (fun a => rfl) db.announcements ann hfind

/-- Witness for C8 at the fixture store. -/
theorem update_title_only_frame_witness :
    ((update_announcement dbA idStr1 (some "New title") none none none
          "teacher1").1
        = .ok { annA with title := "New title" })
    ∧ ((update_announcement dbA idStr1 (some "New title") none none none
          "teacher1").2.announcements.find? (fun a => a.id == 1)
        = some { annA with title := "New title" }) :=
  update_title_only_frame dbA idStr1 "teacher1" "New title" 1 annA
    (by decide) (by decide) (by decide)

/-- After `delete_one` removed the (unique, by `_id` uniqueness of the
store) document with the given id, no document with that id remains. -/
theorem eraseP_id_complete
    (oid : Nat) (a : Announcement) (haid : a.id = oid) :
    ∀ l : List Announcement, (l.map Announcement.id).Nodup → a ∈ l →
      ∀ b ∈ l.eraseP (fun x => x.id == oid), b.id ≠ oid := by
  intro l
  induction l with
  | nil => intro _ ha; simp at ha
  | cons c rest ih =>
    intro hnodup ha
    simp only [List.map_cons, List.nodup_cons] at hnodup
    obtain ⟨hc, hrest⟩ := hnodup
    by_cases hcid : c.id = oid
    · rw [List.eraseP_cons_of_pos (by simp [hcid])]
      intro b hb hbid
      exact hc (by rw [hcid, ← hbid]; exact List.mem_map_of_mem _ hb)
    · rw [List.eraseP_cons_of_neg (by simp [hcid])]
      have ha' : a ∈ rest := by
        rcases List.mem_cons.mp ha with h1 | h2
        · exact absurd (h1 ▸ haid) hcid
        · exact h2
      intro b hb
      rcases List.mem_cons.mp hb with h1 | h2
      · rw [h1]; exact hcid
      · exact ih hrest ha' b h2

/-- C7: for an authorized delete with a well-formed id, against a store
whose documents have pairwise-distinct ids: when no record has the id the
request fails with NotFound and the store is unchanged; when a record has
the id the request returns the confirmation, the record is gone, and a
second delete of the same id fails with NotFound. -/
theorem delete_semantics
    (db : DB) (ids u : String) (oid : Nat)
    (hu : teacherExists db u = true)
    (hid : parseObjectId ids = some oid)
    (hnodup : (db.announcements.map Announcement.id).Nodup) :
    ((∀ a ∈ db.announcements, a.id ≠ oid) →
        delete_announcement db ids u
          = (.error ⟨404, "Announcement not found"⟩, db))
    ∧ (∀ a ∈ db.announcements, a.id = oid →
        (delete_announcement db ids u).1 = .ok "Announcement deleted"
        ∧ a ∉ (delete_announcement db ids u).2.announcements
        ∧ (delete_announcement (delete_announcement db ids u).2 ids u).1
            = .error ⟨404, "Announcement not found"⟩) := by
  constructor
  · intro hnone
    have hany : db.announcements.any (fun x => x.id == oid) = false := by
      simp only [List.any_eq_false]
      intro x hx
      simp [hnone x hx]
    have herase : db.announcements.eraseP (fun x => x.id == oid)
        = db.announcements :=
      List.eraseP_of_forall_not (fun x hx => by simp [hnone x hx])
    simp [delete_announcement, hu, hid, hany, herase]
  · intro a ha haid
    have hany : db.announcements.any (fun x => x.id == oid) = true := by
      simp only [List.any_eq_true]
      exact ⟨a, ha, by simp [haid]⟩
    have hdel : delete_announcement db ids u
        = (.ok "Announcement deleted",
            ⟨db.announcements.eraseP (fun x => x.id == oid), db.teachers⟩) := by
      simp [delete_announcement, hu, hid, hany]
    have hcomplete := eraseP_id_complete oid a haid db.announcements hnodup ha
    refine ⟨by rw [hdel], ?_, ?_⟩
    · rw [hdel]
      intro hmem
      exact hcomplete a hmem haid
    · rw [hdel]
      have hany2 : ((db.announcements.eraseP (fun x => x.id == oid)).any
          (fun x => x.id == oid)) = false := by
        simp only [List.any_eq_false]
        intro x hx
        simp [hcomplete x hx]
      have hmem : u ∈ db.teachers := by
        have h0 := hu
        simp [teacherExists] at h0
        exact h0
      simp [delete_announcement, teacherExists, hid, hany2, hmem]

/-- Witness for C7 at the fixture store: deleting `annA` succeeds, removes
it, and a second delete of the same id is NotFound. -/
theorem delete_semantics_witness :
    (delete_announcement dbA idStr1 "teacher1").1 = .ok "Announcement deleted"
    ∧ annA ∉ (delete_announcement dbA idStr1 "teacher1").2.announcements
    ∧ (delete_announcement (delete_announcement dbA idStr1 "teacher1").2
          idStr1 "teacher1").1
        = .error ⟨404, "Announcement not found"⟩ :=
  (delete_semantics dbA idStr1 "teacher1" 1 (by decide) (by decide)
      (by decide)).2 annA (by decide) (by decide)

/-- C1: a stored announcement is in the active listing exactly when its
`expire_date` parses to a date that is today or later and its `start_date`
is absent or unparseable, or parses to a date not strictly after today.
In particular a record whose `expire_date` is missing or unparseable is
never included. -/
theorem list_active_mem_iff
    (db : DB) (today : Date) (a : Announcement)
    (h : a ∈ db.announcements) :
    a ∈ list_active_announcements db today ↔
      (∃ ex, parse_date a.expire_date = some ex ∧ Date.leb today ex = true ∧
        (parse_date a.start_date = none ∨
          (∃ st, parse_date a.start_date = some st
            ∧ Date.ltb today st = false))) := by
  unfold list_active_announcements
  rw [List.mem_mergeSort, List.mem_filter]
  simp only [h, true_and]
  unfold isActive
  cases he : parse_date a.expire_date with
  | none => simp
  | some ex =>
    cases hs : parse_date a.start_date with
    | none => simp
    | some st =>
      simp
      tauto

/-- Witness for C1 at the fixture store on 2024-01-01: `annA` (expire
2099-01-01, no start date) is listed as active exactly under the stated
condition. -/
theorem list_active_mem_iff_witness :
    annA ∈ list_active_announcements dbA ⟨2024, 1, 1⟩ ↔
      (∃ ex, parse_date annA.expire_date = some ex
        ∧ Date.leb ⟨2024, 1, 1⟩ ex = true
        ∧ (parse_date annA.start_date = none ∨
            (∃ st, parse_date annA.start_date = some st
              ∧ Date.ltb ⟨2024, 1, 1⟩ st = false))) :=
  list_active_mem_iff dbA ⟨2024, 1, 1⟩ annA (by decide)

/-- C9: the active listing is sorted ascending by the raw `expire_date`
string (absent read as `""`) under lexical string comparison. -/
theorem list_active_sorted_by_raw_expire (db : DB) (today : Date) :
    (list_active_announcements db today).Pairwise
      (fun a b => (a.expire_date.getD "") ≤ (b.expire_date.getD "")) := by
  have htrans : ∀ a b c : Announcement,
      decide ((a.expire_date.getD "") ≤ (b.expire_date.getD "")) →
      decide ((b.expire_date.getD "") ≤ (c.expire_date.getD "")) →
      decide ((a.expire_date.getD "") ≤ (c.expire_date.getD "")) := by
    intro a b c hab hbc
    simp only [decide_eq_true_eq] at *
    exact le_trans hab hbc
  have htotal : ∀ a b : Announcement,
      (decide ((a.expire_date.getD "") ≤ (b.expire_date.getD "")) ||
        decide ((b.expire_date.getD "") ≤ (a.expire_date.getD ""))) := by
    intro a b
    simp only [Bool.or_eq_true, decide_eq_true_eq]
    exact le_total _ _
  have h := List.sorted_mergeSort htrans htotal
    (db.announcements.filter (isActive today))
  refine List.Pairwise.imp ?_ h
  intro a b hab
  simpa using hab

/-- C10: create checks `expire_date` only for parseability, never against
the current date: an authorized create with any parseable `expire_date`
succeeds, the new record appears in the unfiltered listing, and when the
expire date is strictly before today it never appears in the active
listing. -/
theorem create_allows_past_expire
    (db : DB) (t m ed u : String) (newId : Nat) (now : String)
    (ex today : Date)
    (hu : teacherExists db u = true)
    (hed : parse_date (some ed) = some ex) :
    ((create_announcement db t m ed none u newId now).1
        = .ok ⟨newId, t, m, none, some ed, u, now⟩)
    ∧ ((⟨newId, t, m, none, some ed, u, now⟩ : Announcement)
        ∈ list_announcements
            (create_announcement db t m ed none u newId now).2)
    ∧ (Date.ltb ex today = true →
        (⟨newId, t, m, none, some ed, u, now⟩ : Announcement)
          ∉ list_active_announcements
              (create_announcement db t m ed none u newId now).2 today) := by
  have hres : create_announcement db t m ed none u newId now
      = (.ok ⟨newId, t, m, none, some ed, u, now⟩,
          ⟨db.announcements ++ [⟨newId, t, m, none, some ed, u, now⟩],
            db.teachers⟩) := by
    simp only [create_announcement, hu, hed, Bool.not_true,
      Bool.false_eq_true, if_false]
    rfl
  refine ⟨by rw [hres], ?_, ?_⟩
  · rw [hres]
    unfold list_announcements
    rw [List.mem_mergeSort]
    simp
  · intro hlt
    rw [hres]
    unfold list_active_announcements
    rw [List.mem_mergeSort, List.mem_filter]
    rintro ⟨-, hact⟩
    unfold isActive at hact
    simp only [hed] at hact
    simp only [parse_date] at hact
    rw [Date.leb, hlt] at hact
    simp at hact

/-- Witness for C10: a create on 2025-06-01 (today) with expire date
2000-01-01 succeeds, is listed, and is not active. -/
theorem create_allows_past_expire_witness :
    ((create_announcement dbA "Old" "Gone" "2000-01-01" none "teacher1" 2
          "now").1
        = .ok ⟨2, "Old", "Gone", none, some "2000-01-01", "teacher1", "now"⟩)
    ∧ ((⟨2, "Old", "Gone", none, some "2000-01-01", "teacher1", "now"⟩ :
          Announcement)
        ∈ list_announcements
            (create_announcement dbA "Old" "Gone" "2000-01-01" none
              "teacher1" 2 "now").2)
    ∧ ((⟨2, "Old", "Gone", none, some "2000-01-01", "teacher1", "now"⟩ :
          Announcement)
        ∉ list_active_announcements
            (create_announcement dbA "Old" "Gone" "2000-01-01" none
              "teacher1" 2 "now").2 ⟨2025, 6, 1⟩) :=
  ⟨(create_allows_past_expire dbA "Old" "Gone" "2000-01-01" "teacher1" 2
      "now" ⟨2000, 1, 1⟩ ⟨2025, 6, 1⟩ (by decide) (by decide)).1,
   (create_allows_past_expire dbA "Old" "Gone" "2000-01-01" "teacher1" 2
      "now" ⟨2000, 1, 1⟩ ⟨2025, 6, 1⟩ (by decide) (by decide)).2.1,
   (create_allows_past_expire dbA "Old" "Gone" "2000-01-01" "teacher1" 2
      "now" ⟨2000, 1, 1⟩ ⟨2025, 6, 1⟩ (by decide) (by decide)).2.2
     (by decide)⟩
